import Mathlib

/-!
Shallow embedding of the automation-concierge core (GitHub client backoff
logic and SQLite state store) together with proofs of the spec claims.

Modelling conventions:
* timestamps are integers (seconds); the datetime round trip through
  format_timestamp / _parse_timestamp is the identity on the model;
* the SQLite tables are lists of row structures; INSERT OR REPLACE on a
  uniqueness key removes the conflicting rows and appends the new one
  (the AUTOINCREMENT surrogate id of action_history is not modelled,
  no claim mentions it);
* StateStore.transaction is a combinator on table values: the body either
  returns the written table (committed) or an exception, in which case the
  pre-transaction state is kept (rollback) and the exception re-raised.
-/

namespace Concierge

/-- Model of the Checkpoint dataclass (checkpoint.py).  Timestamps are
integer seconds, None is Option.none. -/
structure Checkpoint where
  id : String
  last_event_timestamp : Option Int
  last_poll_timestamp : Option Int
  updated_at : Option Int
  deriving Repr, DecidableEq

/-- Embeds Checkpoint.update: takes the current wall clock (datetime.now)
as an explicit argument; keeps the stored event timestamp unless the
candidate is strictly later; Python or-chaining on poll_timestamp keeps
the old value when the argument is None. -/
def Checkpoint.update (c : Checkpoint) (now : Int) (event_timestamp : Option Int)
    (poll_timestamp : Option Int) : Checkpoint :=
  let new_event_ts :=
    match event_timestamp, c.last_event_timestamp with
    | some t, none => some t
    | some t, some cur => if cur < t then some t else some cur
    | none, cur => cur
  let new_poll_ts :=
    match poll_timestamp with
    | some p => some p
    | none => c.last_poll_timestamp
  { id := c.id, last_event_timestamp := new_event_ts,
    last_poll_timestamp := new_poll_ts, updated_at := some now }

/-- Spec-side maximum of an optional value and another optional value. -/
def optMax : Option Int → Option Int → Option Int
  | none, b => b
  | some a, none => some a
  | some a, some b => some (max a b)

/-- Spec-side maximum of a list of integers (none for the empty list). -/
def maxOfList : List Int → Option Int
  | [] => none
  | x :: xs =>
    match maxOfList xs with
    | none => some x
    | some m => some (max x m)

/-- Embeds StateStore.transaction (store.py): the body performs writes on
the connection; on normal completion they are committed, on an exception
the connection is rolled back (pre-transaction state restored) and the
exception is re-raised.  Exceptions are modelled as String values. -/
def transaction {α : Type} (body : α → Except String α) (db : α) :
    Except String Unit × α :=
  match body db with
  | Except.ok db2 => (Except.ok (), db2)
  | Except.error e => (Except.error e, db)

/-- Row of the checkpoints table (migrations.py, id TEXT PRIMARY KEY). -/
structure CheckpointRow where
  last_event_timestamp : Option Int
  last_poll_timestamp : Option Int
  updated_at : Option Int
  deriving Repr, DecidableEq

abbrev CheckpointsTable := List (String × CheckpointRow)

/-- INSERT OR REPLACE INTO checkpoints, keyed on the id primary key. -/
def insertOrReplaceCheckpoint (cid : String) (row : CheckpointRow)
    (tbl : CheckpointsTable) : CheckpointsTable :=
  tbl.filter (fun p => !(p.1 == cid)) ++ [(cid, row)]

/-- Embeds StateStore.get_checkpoint: SELECT by id, empty checkpoint when
no row exists. -/
def get_checkpoint (tbl : CheckpointsTable) (cid : String) : Checkpoint :=
  match tbl.find? (fun p => p.1 == cid) with
  | none =>
    { id := cid, last_event_timestamp := none, last_poll_timestamp := none,
      updated_at := none }
  | some p =>
    { id := cid, last_event_timestamp := p.2.last_event_timestamp,
      last_poll_timestamp := p.2.last_poll_timestamp,
      updated_at := p.2.updated_at }

/-- Embeds StateStore.save_checkpoint: one INSERT OR REPLACE inside a
transaction, updated_at set to the current clock.  The inject argument
models an exception raised during the write (after the INSERT has executed
on the connection), as in the simulated mid-write failure scenario; none
is the normal path. -/
def save_checkpoint (inject : Option String) (now : Int) (cp : Checkpoint)
    (tbl : CheckpointsTable) : Except String Unit × CheckpointsTable :=
  transaction (fun t =>
    let t2 := insertOrReplaceCheckpoint cp.id
      { last_event_timestamp := cp.last_event_timestamp,
        last_poll_timestamp := cp.last_poll_timestamp,
        updated_at := some now } t
    match inject with
    | some e => Except.error e
    | none => Except.ok t2) tbl

/-- Model of the ResultStatus enum (store.py). -/
inductive ResultStatus where
  | success
  | failed
  | skipped
  | pending
  deriving Repr, DecidableEq

/-- Row of the action_history table, UNIQUE(event_id, rule_id); the
AUTOINCREMENT surrogate id is not modelled. -/
structure ActionRow where
  event_id : String
  rule_id : String
  action_type : String
  result : ResultStatus
  message : Option String
  executed_at : Int
  deriving Repr, DecidableEq

abbrev ActionHistory := List ActionRow

/-- SQL key predicate WHERE event_id = ? AND rule_id = ?. -/
def actionKeyIs (e r : String) (row : ActionRow) : Bool :=
  row.event_id == e && row.rule_id == r

/-- Embeds StateStore.has_action_executed. -/
def has_action_executed (tbl : ActionHistory) (e r : String) : Bool :=
  tbl.any (actionKeyIs e r)

/-- Embeds StateStore.record_action: INSERT OR REPLACE keyed on the
UNIQUE(event_id, rule_id) constraint, inside a transaction. -/
def record_action (now : Int) (e r action_type : String) (result : ResultStatus)
    (message : Option String) (tbl : ActionHistory) : ActionHistory :=
  (transaction (fun t => Except.ok
    (t.filter (fun row => !(actionKeyIs e r row)) ++
      [{ event_id := e, rule_id := r, action_type := action_type,
         result := result, message := message, executed_at := now }])) tbl).2

/-- Embeds StateStore._make_threshold_key. -/
def make_threshold_key (entity_id rule_id threshold : String) : String :=
  "threshold:" ++ entity_id ++ ":" ++ rule_id ++ ":" ++ threshold

/-- Embeds StateStore.has_threshold_fired: same SELECT as
has_action_executed against the synthetic dedupe key. -/
def has_threshold_fired (tbl : ActionHistory) (entity_id rule_id threshold : String) :
    Bool :=
  let dedupe_key := make_threshold_key entity_id rule_id threshold
  tbl.any (actionKeyIs dedupe_key rule_id)

/-- Embeds StateStore.record_threshold_fired: delegates to record_action
with the synthetic dedupe key as event id. -/
def record_threshold_fired (now : Int) (entity_id rule_id threshold action_type : String)
    (result : ResultStatus) (message : Option String) (tbl : ActionHistory) :
    ActionHistory :=
  let dedupe_key := make_threshold_key entity_id rule_id threshold
  record_action now dedupe_key rule_id action_type result message tbl

/-- Embeds StateStore.clear_threshold_fired: DELETE of the keyed rows
inside a transaction; the returned Bool is cursor.rowcount greater than
zero, i.e. whether a keyed row existed. -/
def clear_threshold_fired (entity_id rule_id threshold : String)
    (tbl : ActionHistory) : Bool × ActionHistory :=
  let dedupe_key := make_threshold_key entity_id rule_id threshold
  let res := transaction (fun t =>
    Except.ok (t.filter (fun row => !(actionKeyIs dedupe_key rule_id row)))) tbl
  let deleted := tbl.any (actionKeyIs dedupe_key rule_id)
  (deleted, res.2)

/-- Model of the Disposition enum (store.py). -/
inductive Disposition where
  | action_executed
  | no_match
  | dry_run
  | error
  | skipped
  deriving Repr, DecidableEq

/-- Row of the processed_events table (event_id TEXT PRIMARY KEY).
Timestamps are nonnegative seconds since an epoch midnight (UTC). -/
structure ProcessedRow where
  event_id : String
  event_type : String
  disposition : Disposition
  processed_at : Nat
  ttl_expires_at : Nat
  deriving Repr, DecidableEq

abbrev ProcessedEvents := List ProcessedRow

def secondsPerDay : Nat := 86400

/-- Embeds StateStore.is_processed. -/
def is_processed (tbl : ProcessedEvents) (event_id : String) : Bool :=
  tbl.any (fun row => row.event_id == event_id)

/-- Embeds StateStore.mark_processed: INSERT OR REPLACE keyed on event_id
with ttl_expires_at = now + retention_days days, inside a transaction. -/
def mark_processed (now : Nat) (retention_days : Nat) (event_id event_type : String)
    (disposition : Disposition) (tbl : ProcessedEvents) : ProcessedEvents :=
  let ttl_expires := now + retention_days * secondsPerDay
  (transaction (fun t => Except.ok
    (t.filter (fun row => !(row.event_id == event_id)) ++
      [{ event_id := event_id, event_type := event_type, disposition := disposition,
         processed_at := now, ttl_expires_at := ttl_expires }])) tbl).2

/-- UTC calendar day of a timestamp. -/
def utcDay (t : Nat) : Nat := t / secondsPerDay

/-- Embeds the SQL comparison ttl_expires_at < datetime('now') of
cleanup_expired.  The stored value is the Python isoformat text
YYYY-MM-DDTHH:MM:SS.ffffff+00:00 while datetime('now') yields
YYYY-MM-DD HH:MM:SS; SQLite compares TEXT with binary collation, so the
fixed-width date field decides first, and when the dates are equal the
stored separator 'T' (0x54) exceeds the space (0x20), making the stored
text the greater one.  The comparison therefore holds exactly when the
stored expiry falls on an earlier UTC calendar day than the clock. -/
def ttlTextLtNow (ttl now : Nat) : Bool := utcDay ttl < utcDay now

/-- Embeds StateStore.cleanup_expired: DELETE the rows whose ttl text
compares below datetime('now'), inside a transaction; returns
cursor.rowcount, the number of rows removed. -/
def cleanup_expired (now : Nat) (tbl : ProcessedEvents) : Nat × ProcessedEvents :=
  let res := transaction (fun t =>
    Except.ok (t.filter (fun row => !(ttlTextLtNow row.ttl_expires_at now)))) tbl
  let count := tbl.countP (fun row => ttlTextLtNow row.ttl_expires_at now)
  (count, res.2)

/-! GitHub client (client.py).  Strings are handled with an executable
substring test over character lists; Python str.lower is String.toLower
(the needles involved are ASCII). -/

/-- Tests whether the needle is an initial segment of the haystack. -/
def headMatchesList : List Char → List Char → Bool
  | [], _ => true
  | _ :: _, [] => false
  | a :: as, b :: bs => a == b && headMatchesList as bs

/-- Tests whether the needle occurs contiguously in the haystack,
mirroring the Python in operator on str. -/
def hasSubList (needle : List Char) : List Char → Bool
  | [] => needle.isEmpty
  | c :: rest => headMatchesList needle (c :: rest) || hasSubList needle rest

/-- Python str.lower as a character list (the needles compared against are
ASCII, where Char.toLower agrees with Python). -/
def lowerChars (s : String) : List Char := s.data.map Char.toLower

/-- Python needle in hay, with the haystack already a character list. -/
def charsHaveSub (hay : List Char) (needle : String) : Bool :=
  hasSubList needle.data hay

/-- Model of the RateLimitInfo dataclass; reset_at is an absolute point in
time (rational seconds). -/
structure RateLimitInfo where
  limit : Nat
  remaining : Nat
  reset_at : ℚ
  used : Nat
  deriving Repr, DecidableEq

/-- GitHubClient.RATE_LIMIT_THRESHOLD. -/
def RATE_LIMIT_THRESHOLD : Nat := 100

/-- GitHubClient.MAX_RETRIES. -/
def MAX_RETRIES : Nat := 4

/-- GitHubClient.INITIAL_BACKOFF_SECONDS. -/
def INITIAL_BACKOFF_SECONDS : Nat := 60

/-- GitHubClient.MAX_BACKOFF_SECONDS. -/
def MAX_BACKOFF_SECONDS : Nat := 480

/-- GitHubClient.SECONDARY_BACKOFF_MULTIPLIERS (minutes). -/
def SECONDARY_BACKOFF_MULTIPLIERS : List Nat := [1, 2, 4, 8]

/-- Embeds RateLimitInfo.seconds_until_reset with the clock explicit. -/
def seconds_until_reset (info : RateLimitInfo) (now : ℚ) : ℚ :=
  max 0 (info.reset_at - now)

/-- Embeds GitHubClient._check_rate_limit with the clock and the drawn
jitter explicit; returns the requested sleep duration, none when no pause
happens. -/
def check_rate_limit (rate_limit : Option RateLimitInfo) (now jitter : ℚ) :
    Option ℚ :=
  match rate_limit with
  | none => none
  | some info =>
    if info.remaining < RATE_LIMIT_THRESHOLD then
      some (seconds_until_reset info now + jitter)
    else none

/-- Model of an httpx response as consumed by _handle_response: status,
whether the body is nonempty, the message field of the JSON body, the
X-RateLimit headers, the Retry-After header (none when absent) and the
parsed JSON payload (abstract). -/
structure Resp where
  status : Nat
  hasContent : Bool
  message : String
  limit : Nat
  remaining : Nat
  reset_at : ℚ
  used : Nat
  retryAfterHeader : Option Nat
  body : List Nat
  deriving Repr, DecidableEq

/-- Exceptions raised by the client: RateLimitError, TransientError,
GitHubAPIError (apiError with its status_code, none for the wrapped
retries-exhausted errors) and httpx.RequestError (netError). -/
inductive ClientError where
  | rateLimit (reset_at : Option ℚ) (remaining : Nat) (limit : Nat) (is_secondary : Bool)
  | transient (status : Option Nat) (retry_after : Option Nat)
  | apiError (status : Option Nat)
  | netError
  deriving Repr, DecidableEq

/-- body.get message of the 403 branch: the JSON body is read only when
response.content is nonempty, otherwise the message defaults to "". -/
def message403 (r : Resp) : String := if r.hasContent then r.message else ""

/-- Embeds int(headers.get("Retry-After", 0)) or None: an absent or zero
header becomes None. -/
def normRetryAfter (h : Option Nat) : Option Nat :=
  match h with
  | none => none
  | some v => if v == 0 then none else some v

/-- RateLimitInfo.from_headers on the modelled response. -/
def rateLimitFromHeaders (r : Resp) : RateLimitInfo :=
  { limit := r.limit, remaining := r.remaining, reset_at := r.reset_at, used := r.used }

/-- Embeds GitHubClient._handle_response.  The fresh header snapshot is
stored first and the 403 branch consults its remaining count; branch
order follows the source: 200, 304, 403 (primary test, then secondary
test, then access denied), 401, 5xx, other. -/
def handle_response (r : Resp) : Except ClientError (List Nat) :=
  let rl := rateLimitFromHeaders r
  if r.status == 200 then Except.ok r.body
  else if r.status == 304 then Except.ok []
  else if r.status == 403 then
    let msg := lowerChars (message403 r)
    if charsHaveSub msg "rate limit" || rl.remaining == 0 then
      Except.error (ClientError.rateLimit (some rl.reset_at) rl.remaining rl.limit false)
    else if charsHaveSub msg "secondary rate limit" || charsHaveSub msg "abuse" then
      Except.error (ClientError.rateLimit (some rl.reset_at) rl.remaining rl.limit true)
    else Except.error (ClientError.apiError (some 403))
  else if r.status == 401 then Except.error (ClientError.apiError (some 401))
  else if 500 ≤ r.status then
    Except.error (ClientError.transient (some r.status) (normRetryAfter r.retryAfterHeader))
  else Except.error (ClientError.apiError (some r.status))

/-- Outcome of one HTTP attempt: either the exchange completes with a
response (classified by handle_response) or httpx raises a network
error. -/
inductive AttemptOutcome where
  | completes (resp : Resp)
  | netErr
  deriving Repr

/-- Exponential backoff min(INITIAL * 2 ^ attempt, MAX) of the transient
and network branches. -/
def expBackoff (attempt : Nat) : Nat :=
  min (INITIAL_BACKOFF_SECONDS * 2 ^ attempt) MAX_BACKOFF_SECONDS

/-- Raise performed after the retry loop exhausts: RateLimitError and
GitHubAPIError are re-raised as they are, anything else is wrapped into a
GitHubAPIError with no status code; with no recorded error the unknown
failure GitHubAPIError is raised. -/
def finalRaise (last_error : Option ClientError) : Except ClientError (List Nat) :=
  match last_error with
  | some (ClientError.rateLimit a b c d) =>
    Except.error (ClientError.rateLimit a b c d)
  | some (ClientError.apiError s) => Except.error (ClientError.apiError s)
  | some _ => Except.error (ClientError.apiError none)
  | none => Except.error (ClientError.apiError none)

/-- Embeds the body of GitHubClient._request_with_retry.  Arguments: the
outcome of each attempt, the clock and the drawn jitter at each attempt,
the attempt index, the remaining loop iterations (MAX_RETRIES at the
top), the _secondary_rate_limit_retries field and last_error.  Returns
the call result together with the list of backoff sleeps performed by the
except branches, in order.  The pre-request _check_rate_limit pause is
modelled separately by check_rate_limit and contributes no entry here.
As in the source, the counter reset runs on every completed exchange
before the response is classified. -/
def runAux (o : Nat → AttemptOutcome) (now jit : Nat → ℚ) :
    Nat → Nat → Nat → Option ClientError → Except ClientError (List Nat) × List ℚ
  | _, 0, _, last_error => (finalRaise last_error, [])
  | attempt, fuel + 1, counter, _ =>
    match o attempt with
    | AttemptOutcome.netErr =>
      let w : ℚ := expBackoff attempt
      let rest := runAux o now jit (attempt + 1) fuel counter
        (some ClientError.netError)
      (rest.1, w :: rest.2)
    | AttemptOutcome.completes resp =>
      let counter := 0
      match handle_response resp with
      | Except.ok b => (Except.ok b, [])
      | Except.error e =>
        match e with
        | ClientError.rateLimit reset_at remaining lim true =>
          if SECONDARY_BACKOFF_MULTIPLIERS.length ≤ counter then
            (Except.error (ClientError.rateLimit reset_at remaining lim true), [])
          else
            let backoff_minutes := SECONDARY_BACKOFF_MULTIPLIERS.getD counter 0
            let w : ℚ := backoff_minutes * 60
            let rest := runAux o now jit (attempt + 1) fuel (counter + 1)
              (some (ClientError.rateLimit reset_at remaining lim true))
            (rest.1, w :: rest.2)
        | ClientError.rateLimit reset_at remaining lim false =>
          match reset_at with
          | some t =>
            let w : ℚ := max 0 (t - now attempt + jit attempt)
            let rest := runAux o now jit (attempt + 1) fuel counter
              (some (ClientError.rateLimit (some t) remaining lim false))
            (rest.1, w :: rest.2)
          | none =>
            (Except.error (ClientError.rateLimit none remaining lim false), [])
        | ClientError.transient st ra =>
          let base := expBackoff attempt
          let w : ℚ :=
            match ra with
            | some v => if v == 0 then (base : ℚ) else (v : ℚ)
            | none => (base : ℚ)
          let rest := runAux o now jit (attempt + 1) fuel counter
            (some (ClientError.transient st ra))
          (rest.1, w :: rest.2)
        | ClientError.apiError s => (Except.error (ClientError.apiError s), [])
        | ClientError.netError => (Except.error ClientError.netError, [])

/-- One logical call through _request_with_retry, starting from a given
value of the persistent secondary-rate-limit counter. -/
def runRetry (o : Nat → AttemptOutcome) (now jit : Nat → ℚ) (counter0 : Nat) :
    Except ClientError (List Nat) × List ℚ :=
  runAux o now jit 0 MAX_RETRIES counter0 none

/-- Observer: the is_secondary flag of a raised RateLimitError, none when
the result is not a RateLimitError. -/
def rateLimitFlag : Except ClientError (List Nat) → Option Bool
  | Except.error (ClientError.rateLimit _ _ _ sec) => some sec
  | _ => none

/-- A response carries a rate-limit signal: its body message mentions
rate limiting or abuse detection, or the remaining header count is 0. -/
def hasRateLimitSignal (r : Resp) : Bool :=
  charsHaveSub (lowerChars (message403 r)) "rate limit" || r.remaining == 0
    || charsHaveSub (lowerChars (message403 r)) "abuse"

/-- Backoff actually slept after a transient response at a given attempt:
the Retry-After value when the server sent a nonzero one, otherwise the
exponential formula. -/
def transientBackoffWait (k : Nat) (raHdr : Option Nat) : ℚ :=
  match normRetryAfter raHdr with
  | some v => (v : ℚ)
  | none => ((expBackoff k : Nat) : ℚ)

/-- The transient condition of the spec, per attempt: the HTTP exchange
either fails with a network error (the httpx.RequestError branch) or
completes with a 5xx response (the TransientError branch). -/
def TransientOutcome : AttemptOutcome → Prop
  | AttemptOutcome.netErr => True
  | AttemptOutcome.completes resp => 500 ≤ resp.status

/-- No server retry hint on an attempt: a network error carries none and
a completed response bears no Retry-After header. -/
def NoRetryHint : AttemptOutcome → Prop
  | AttemptOutcome.netErr => True
  | AttemptOutcome.completes resp => resp.retryAfterHeader = none

/-- Backoff slept after a transient attempt of either kind: always the
exponential formula for a network error, transientBackoffWait for a 5xx
response. -/
def transientAttemptWait (k : Nat) : AttemptOutcome → ℚ
  | AttemptOutcome.netErr => ((expBackoff k : Nat) : ℚ)
  | AttemptOutcome.completes resp => transientBackoffWait k resp.retryAfterHeader

/-- Concrete 403 abuse-detection response (secondary rate limit). -/
def respAbuse : Resp :=
  { status := 403, hasContent := true, message := "abuse detection triggered",
    limit := 5000, remaining := 10, reset_at := 0, used := 4990,
    retryAfterHeader := some 60, body := [] }

/-- Concrete 429 response announcing rate limiting. -/
def resp429 : Resp :=
  { status := 429, hasContent := true, message := "API rate limit exceeded",
    limit := 5000, remaining := 0, reset_at := 0, used := 5000,
    retryAfterHeader := some 60, body := [] }

/-- Concrete 403 response whose message announces a secondary rate limit. -/
def respSecondaryMessage : Resp :=
  { status := 403, hasContent := true,
    message := "You have exceeded a secondary rate limit",
    limit := 5000, remaining := 5, reset_at := 0, used := 4995,
    retryAfterHeader := none, body := [] }

/-- Concrete 403 primary rate-limit response. -/
def respPrimary403 : Resp :=
  { status := 403, hasContent := true, message := "API rate limit exceeded",
    limit := 5000, remaining := 0, reset_at := 0, used := 5000,
    retryAfterHeader := none, body := [] }

/-- Concrete 401 response. -/
def resp401 : Resp :=
  { status := 401, hasContent := false, message := "",
    limit := 5000, remaining := 100, reset_at := 0, used := 0,
    retryAfterHeader := none, body := [] }

/-- Concrete 502 response with an optional Retry-After header. -/
def resp502 (raHdr : Option Nat) : Resp :=
  { status := 502, hasContent := false, message := "",
    limit := 5000, remaining := 100, reset_at := 0, used := 0,
    retryAfterHeader := raHdr, body := [] }

/-- Concrete mixed transient run: a network error on attempt 0, a 502
carrying Retry-After 33 on attempt 1, plain 502 responses afterwards. -/
def outcomesMixed : Nat → AttemptOutcome
  | 0 => AttemptOutcome.netErr
  | 1 => AttemptOutcome.completes (resp502 (some 33))
  | _ => AttemptOutcome.completes (resp502 none)

/-! Helper lemmas. -/

theorem optMax_none_right (a : Option Int) : optMax a none = a := by
  cases a <;> rfl

theorem optMax_assoc (a b c : Option Int) :
    optMax (optMax a b) c = optMax a (optMax b c) := by
  cases a <;> cases b <;> cases c <;> simp [optMax, max_assoc]

theorem update_event_component (c : Checkpoint) (now : Int) (et pt : Option Int) :
    (c.update now et pt).last_event_timestamp = optMax c.last_event_timestamp et := by
  cases et with
  | none =>
    cases h : c.last_event_timestamp <;> simp [Checkpoint.update, optMax, h]
  | some t =>
    cases h : c.last_event_timestamp with
    | none => simp [Checkpoint.update, optMax, h]
    | some cur =>
      simp only [Checkpoint.update, optMax, h]
      rcases lt_or_ge cur t with h1 | h1
      · simp [if_pos h1, max_eq_right h1.le]
      · simp [if_neg (not_lt.2 h1), max_eq_left h1]

theorem maxOfList_cons (t : Int) (l : List Int) :
    maxOfList (t :: l) = optMax (some t) (maxOfList l) := by
  cases h : maxOfList l <;> simp [maxOfList, optMax, h]

theorem foldl_optMax (a : Option Int) (l : List (Option Int)) :
    l.foldl optMax a = optMax a (maxOfList (l.filterMap id)) := by
  induction l generalizing a with
  | nil => simp [maxOfList, optMax_none_right]
  | cons hd rest ih =>
    cases hd with
    | none =>
      rw [List.foldl_cons, optMax_none_right, ih]
      simp only [List.filterMap_cons, id_eq]
    | some t =>
      rw [List.foldl_cons, ih, optMax_assoc]
      simp only [List.filterMap_cons, id_eq, maxOfList_cons]

theorem fold_update_event (c : Checkpoint) (steps : List (Option Int × Int)) :
    (steps.foldl (fun acc p => acc.update p.2 p.1 none) c).last_event_timestamp
      = (steps.map Prod.fst).foldl optMax c.last_event_timestamp := by
  induction steps generalizing c with
  | nil => rfl
  | cons p rest ih =>
    simp only [List.foldl_cons, List.map_cons]
    rw [ih, update_event_component]

/-- C2: over any finite sequence of Checkpoint.update calls (each step is a
candidate event timestamp together with the wall clock of the call, poll
timestamp omitted), the resulting last_event_timestamp equals the maximum
of the initial value and all non-None candidates; and an update with a
timestamp strictly older than the stored one leaves last_event_timestamp
unchanged. -/
theorem checkpoint_update_monotone :
    (∀ (c : Checkpoint) (steps : List (Option Int × Int)),
      (steps.foldl (fun acc p => acc.update p.2 p.1 none) c).last_event_timestamp
        = optMax c.last_event_timestamp (maxOfList (steps.filterMap Prod.fst)))
    ∧ (∀ (c : Checkpoint) (now t t0 : Int),
      c.last_event_timestamp = some t0 → t < t0 →
      (c.update now (some t) none).last_event_timestamp = some t0) := by
  constructor
  · intro c steps
    rw [fold_update_event, foldl_optMax]
    congr 1
    rw [List.filterMap_map]
    simp [Function.comp_def]
  · intro c now t t0 h1 h2
    simp [Checkpoint.update, h1, if_neg (by omega : ¬ (t0 < t))]

/-- Witness for C2 at a concrete input: a stored timestamp 10 is not
regressed by an update with candidate 5. -/
theorem checkpoint_update_monotone_witness :
    (({ id := "main", last_event_timestamp := some 10, last_poll_timestamp := none,
        updated_at := none } : Checkpoint).update 99 (some 5) none).last_event_timestamp
      = some 10 :=
  checkpoint_update_monotone.2 _ 99 5 10 rfl (by norm_num)

/-- C3: an exception raised during the write inside save_checkpoint rolls
the transaction back and is re-raised, and get_checkpoint returns the same
value before and after the failed attempt, for every table state,
checkpoint value, exception and checkpoint id. -/
theorem save_checkpoint_rollback_atomicity :
    ∀ (tbl : CheckpointsTable) (cp : Checkpoint) (e : String) (now : Int)
      (cid : String),
      (save_checkpoint (some e) now cp tbl).1 = Except.error e
      ∧ (save_checkpoint (some e) now cp tbl).2 = tbl
      ∧ get_checkpoint (save_checkpoint (some e) now cp tbl).2 cid
          = get_checkpoint tbl cid := by
  intro tbl cp e now cid
  exact ⟨rfl, rfl, rfl⟩

/-- C4: recording an action twice for the same (event, rule) pair leaves
exactly one keyed row, carrying the second call's values, and
has_action_executed is true after either call; the double record is a
plain upsert, for every prior table state. -/
theorem record_action_idempotent_upsert :
    ∀ (tbl : ActionHistory) (e r a1 a2 : String) (res1 res2 : ResultStatus)
      (m1 m2 : Option String) (n1 n2 : Int),
      (record_action n2 e r a2 res2 m2 (record_action n1 e r a1 res1 m1 tbl)).filter
          (actionKeyIs e r)
        = [{ event_id := e, rule_id := r, action_type := a2, result := res2,
             message := m2, executed_at := n2 }]
      ∧ has_action_executed (record_action n1 e r a1 res1 m1 tbl) e r = true
      ∧ has_action_executed
          (record_action n2 e r a2 res2 m2 (record_action n1 e r a1 res1 m1 tbl)) e r
          = true := by
  intro tbl e r a1 a2 res1 res2 m1 m2 n1 n2
  have hkey : ∀ (a : String) (res : ResultStatus) (m : Option String) (n : Int),
      actionKeyIs e r
        { event_id := e, rule_id := r, action_type := a, result := res,
          message := m, executed_at := n } = true := by
    intro a res m n
    simp [actionKeyIs]
  refine ⟨?_, ?_, ?_⟩
  · simp [record_action, transaction, List.filter_append, List.filter_filter, hkey]
  · simp [has_action_executed, record_action, transaction, List.any_append, hkey]
  · simp [has_action_executed, record_action, transaction, List.any_append, hkey]

/-- C7: starting from an empty store, has_threshold_fired is false; after
record_threshold_fired it is true and the marker row's event id is the
synthetic key threshold:E:R:T; clear_threshold_fired returns true and
makes the flag false again; a second clear on the already-clear key
returns false.  Holds for every entity id, rule id and threshold. -/
theorem threshold_fire_once_cycle :
    ∀ (E R T a : String) (res : ResultStatus) (m : Option String) (n : Int),
      has_threshold_fired [] E R T = false
      ∧ has_threshold_fired (record_threshold_fired n E R T a res m []) E R T = true
      ∧ (record_threshold_fired n E R T a res m []).map ActionRow.event_id
          = ["threshold:" ++ E ++ ":" ++ R ++ ":" ++ T]
      ∧ (clear_threshold_fired E R T (record_threshold_fired n E R T a res m [])).1
          = true
      ∧ has_threshold_fired
          (clear_threshold_fired E R T (record_threshold_fired n E R T a res m [])).2
          E R T = false
      ∧ (clear_threshold_fired E R T
            (clear_threshold_fired E R T (record_threshold_fired n E R T a res m [])).2).1
          = false := by
  intro E R T a res m n
  refine ⟨rfl, ?_, ?_, ?_, ?_, ?_⟩ <;>
    simp [has_threshold_fired, record_threshold_fired, clear_threshold_fired,
      record_action, transaction, make_threshold_key, actionKeyIs]

/-- C8 counterexample: a processed event marked at time 0 with
retention_days 30 stores expiry 2592000; at clock 2599200 (two hours past
the expiry, same UTC day) the expiry is in the past, yet cleanup_expired
removes 0 rows and the event stays processed — the stored isoformat text
with its 'T' separator never compares below the space-separated
datetime('now') of the same day. -/
theorem cleanup_expired_subday_counterexample :
    (mark_processed 0 30 "evt-1" "mention" Disposition.action_executed []).map
        ProcessedRow.ttl_expires_at = [2592000]
    ∧ 2592000 < 2599200
    ∧ cleanup_expired 2599200
        (mark_processed 0 30 "evt-1" "mention" Disposition.action_executed [])
      = (0, mark_processed 0 30 "evt-1" "mention" Disposition.action_executed [])
    ∧ is_processed
        (cleanup_expired 2599200
          (mark_processed 0 30 "evt-1" "mention" Disposition.action_executed [])).2
        "evt-1" = true := by
  refine ⟨rfl, by norm_num, ?_, ?_⟩ <;> rfl

/-- C8 as amended: mark_processed stores ttl_expires_at = T0 + 30 days;
cleanup_expired deletes the rows whose expiry falls on an earlier UTC
calendar day than the clock (the text comparison against datetime('now')
never fires on the expiry's own day); in the spec scenario, at T0 + 29
days it removes 0 rows and the event stays processed, at T0 + 31 days it
removes 1 row and is_processed returns false afterwards. -/
theorem cleanup_expired_day_granularity :
    ∀ (T0 : Nat) (eid ety : String) (disp : Disposition),
      (mark_processed T0 30 eid ety disp []).map ProcessedRow.ttl_expires_at
          = [T0 + 30 * secondsPerDay]
      ∧ cleanup_expired (T0 + 29 * secondsPerDay) (mark_processed T0 30 eid ety disp [])
          = (0, mark_processed T0 30 eid ety disp [])
      ∧ is_processed
          (cleanup_expired (T0 + 29 * secondsPerDay)
            (mark_processed T0 30 eid ety disp [])).2 eid = true
      ∧ cleanup_expired (T0 + 31 * secondsPerDay) (mark_processed T0 30 eid ety disp [])
          = (1, [])
      ∧ is_processed
          (cleanup_expired (T0 + 31 * secondsPerDay)
            (mark_processed T0 30 eid ety disp [])).2 eid = false := by
  intro T0 eid ety disp
  have hdiv : ∀ k : Nat, (T0 + k * secondsPerDay) / secondsPerDay
      = T0 / secondsPerDay + k := fun k =>
    Nat.add_mul_div_right T0 k (by norm_num [secondsPerDay])
  have h29 : ttlTextLtNow (T0 + 30 * secondsPerDay) (T0 + 29 * secondsPerDay)
      = false := by
    simp only [ttlTextLtNow, utcDay, hdiv, decide_eq_false_iff_not]
    omega
  have h31 : ttlTextLtNow (T0 + 30 * secondsPerDay) (T0 + 31 * secondsPerDay)
      = true := by
    simp only [ttlTextLtNow, utcDay, hdiv, decide_eq_true_eq]
    omega
  refine ⟨rfl, ?_, ?_, ?_, ?_⟩ <;>
    simp [cleanup_expired, mark_processed, transaction, is_processed, h29, h31]

/-- C10: with a stored rate-limit snapshot whose reset is 30 seconds away
and a jitter draw in the interval from 0 inclusive to 10 exclusive, a
remaining count below the threshold of 100 makes _check_rate_limit sleep
for 30 + jitter seconds — at least 30 and less than 40 — while a
remaining count of 100 or more produces no pause. -/
theorem rate_limit_pause_trigger :
    ∀ (info : RateLimitInfo) (now jitter : ℚ),
      0 ≤ jitter → jitter < 10 →
      ((info.remaining < RATE_LIMIT_THRESHOLD → info.reset_at = now + 30 →
        check_rate_limit (some info) now jitter = some (30 + jitter)
        ∧ 30 ≤ 30 + jitter ∧ 30 + jitter < 40)
      ∧ (RATE_LIMIT_THRESHOLD ≤ info.remaining →
        check_rate_limit (some info) now jitter = none)) := by
  intro info now jitter h0 h10
  constructor
  · intro hrem hreset
    have hs : seconds_until_reset info now = 30 := by
      simp [seconds_until_reset, hreset]
    refine ⟨?_, by linarith, by linarith⟩
    simp [check_rate_limit, if_pos hrem, hs]
  · intro hrem
    simp [check_rate_limit, if_neg (not_lt.2 hrem)]

/-- Witness for C10 at the spec scenario: remaining 50 with reset 30
seconds away and jitter 5 pauses for 35 seconds; remaining 150 does not
pause. -/
theorem rate_limit_pause_trigger_witness :
    (check_rate_limit (some ⟨5000, 50, 130, 4950⟩) 100 5 = some (30 + 5)
      ∧ (30 : ℚ) ≤ 30 + 5 ∧ (30 : ℚ) + 5 < 40)
    ∧ check_rate_limit (some ⟨5000, 150, 130, 4850⟩) 100 5 = none :=
  ⟨(rate_limit_pause_trigger _ 100 5 (by norm_num) (by norm_num)).1
      (by norm_num [RATE_LIMIT_THRESHOLD]) (by norm_num),
    (rate_limit_pause_trigger _ 100 5 (by norm_num) (by norm_num)).2
      (by norm_num [RATE_LIMIT_THRESHOLD])⟩

theorem hasSubList_of_headMatches :
    ∀ (b xs : List Char), headMatchesList b xs = true → hasSubList b xs = true := by
  intro b xs h
  cases xs with
  | nil =>
    cases b with
    | nil => rfl
    | cons c cs => simp [headMatchesList] at h
  | cons c rest => simp [hasSubList, h]

theorem hasSubList_of_headMatches_append :
    ∀ (a b xs : List Char), headMatchesList (a ++ b) xs = true →
      hasSubList b xs = true := by
  intro a
  induction a with
  | nil => intro b xs h; exact hasSubList_of_headMatches b xs h
  | cons hd tl ih =>
    intro b xs h
    cases xs with
    | nil => simp [headMatchesList] at h
    | cons x xs2 =>
      rw [List.cons_append] at h
      simp only [headMatchesList, Bool.and_eq_true] at h
      simp [hasSubList, ih b xs2 h.2]

theorem hasSubList_append :
    ∀ (a b xs : List Char), hasSubList (a ++ b) xs = true →
      hasSubList b xs = true := by
  intro a b xs
  induction xs with
  | nil =>
    intro h
    simp only [hasSubList, List.isEmpty_iff, List.append_eq_nil] at h
    simp [hasSubList, List.isEmpty_iff, h.2]
  | cons c rest ih =>
    intro h
    simp only [hasSubList, Bool.or_eq_true] at h
    rcases h with h | h
    · exact hasSubList_of_headMatches_append a b _ h
    · simp [hasSubList, ih h]

theorem charsHaveSub_of_secondary (m : List Char) :
    charsHaveSub m "secondary rate limit" = true →
      charsHaveSub m "rate limit" = true := by
  intro h
  have hsplit : ("secondary rate limit").data
      = ("secondary ").data ++ ("rate limit").data := by decide
  unfold charsHaveSub at h ⊢
  rw [hsplit] at h
  exact hasSubList_append _ _ _ h

/-- C6: for every 403 response, a lowered body message containing
"rate limit" or a remaining header count of 0 yields a RateLimitError
with is_secondary false (the primary branch shadows messages announcing a
secondary rate limit, since they contain "rate limit"); a RateLimitError
with is_secondary true is raised only when the remaining count is nonzero
and the message contains "abuse" without containing "rate limit". -/
theorem secondary_branch_characterization :
    ∀ (r : Resp), r.status = 403 →
      ((charsHaveSub (lowerChars (message403 r)) "rate limit" = true
          ∨ r.remaining = 0) →
        rateLimitFlag (handle_response r) = some false)
      ∧ (rateLimitFlag (handle_response r) = some true →
        r.remaining ≠ 0
        ∧ charsHaveSub (lowerChars (message403 r)) "abuse" = true
        ∧ charsHaveSub (lowerChars (message403 r)) "rate limit" = false) := by
  intro r hst
  have h200 : (r.status == 200) = false := by simp [hst]
  have h304 : (r.status == 304) = false := by simp [hst]
  have h403 : (r.status == 403) = true := by simp [hst]
  constructor
  · intro hsig
    have hcond : (charsHaveSub (lowerChars (message403 r)) "rate limit"
        || (rateLimitFromHeaders r).remaining == 0) = true := by
      rcases hsig with h | h
      · simp [h]
      · simp [rateLimitFromHeaders, h]
    simp [handle_response, h200, h304, h403, hcond, rateLimitFlag]
  · intro hflag
    by_cases hrl : charsHaveSub (lowerChars (message403 r)) "rate limit" = true
    · simp [handle_response, h200, h304, h403, hrl, rateLimitFlag] at hflag
    · have hrl' : charsHaveSub (lowerChars (message403 r)) "rate limit" = false := by
        simpa using hrl
      by_cases hrem : r.remaining = 0
      · simp [handle_response, h200, h304, h403, hrl', hrem,
          rateLimitFromHeaders, rateLimitFlag] at hflag
      · refine ⟨hrem, ?_, hrl'⟩
        by_cases hab : charsHaveSub (lowerChars (message403 r)) "abuse" = true
        · exact hab
        · have hab' : charsHaveSub (lowerChars (message403 r)) "abuse" = false := by
            simpa using hab
          by_cases hsec : charsHaveSub (lowerChars (message403 r))
              "secondary rate limit" = true
          · exact absurd (charsHaveSub_of_secondary _ hsec) hrl
          · have hsec' : charsHaveSub (lowerChars (message403 r))
                "secondary rate limit" = false := by simpa using hsec
            simp [handle_response, h200, h304, h403, hrl', hab', hsec',
              rateLimitFromHeaders, hrem, rateLimitFlag] at hflag

/-- Witness for C6: a 403 whose message announces a secondary rate limit
but with remaining 5 is classified by the primary branch, is_secondary
false. -/
theorem secondary_branch_characterization_witness :
    rateLimitFlag (handle_response respSecondaryMessage) = some false :=
  (secondary_branch_characterization respSecondaryMessage rfl).1 (Or.inl (by decide))

/-- C5 counterexample: a 429 response carrying a rate-limit signal (the
message announces rate limiting and remaining is 0) is not turned into a
RateLimitError: _handle_response has no 429 branch and raises the fatal
GitHubAPIError of the final catch-all. -/
theorem resp429_fatal_counterexample :
    hasRateLimitSignal resp429 = true
    ∧ handle_response resp429 = Except.error (ClientError.apiError (some 429))
    ∧ rateLimitFlag (handle_response resp429) = none := by
  refine ⟨by decide, rfl, rfl⟩

/-- C5 as amended: a 403 with a rate-limit signal raises a RateLimitError
(primary or secondary); a 403 without a signal, a 401, and a 429 — even
one carrying a rate-limit signal — raise the fatal GitHubAPIError with
their status code. -/
theorem handle_response_classification :
    ∀ (r : Resp),
      (r.status = 403 → hasRateLimitSignal r = true →
        (rateLimitFlag (handle_response r)).isSome = true)
      ∧ (r.status = 403 → hasRateLimitSignal r = false →
        handle_response r = Except.error (ClientError.apiError (some 403)))
      ∧ (r.status = 401 →
        handle_response r = Except.error (ClientError.apiError (some 401)))
      ∧ (r.status = 429 →
        handle_response r = Except.error (ClientError.apiError (some 429))) := by
  intro r
  refine ⟨?_, ?_, ?_, ?_⟩
  · intro hst hsig
    have h200 : (r.status == 200) = false := by simp [hst]
    have h304 : (r.status == 304) = false := by simp [hst]
    have h403 : (r.status == 403) = true := by simp [hst]
    by_cases hc1 : (charsHaveSub (lowerChars (message403 r)) "rate limit"
        || (rateLimitFromHeaders r).remaining == 0) = true
    · simp [handle_response, h200, h304, h403, hc1, rateLimitFlag]
    · have hc1' : charsHaveSub (lowerChars (message403 r)) "rate limit" = false
          ∧ r.remaining ≠ 0 := by
        simpa [rateLimitFromHeaders] using hc1
      have hab : charsHaveSub (lowerChars (message403 r)) "abuse" = true := by
        simp only [hasRateLimitSignal, Bool.or_eq_true, beq_iff_eq] at hsig
        rcases hsig with (h | h) | h
        · exact absurd h (by simp [hc1'.1])
        · exact absurd h hc1'.2
        · exact h
      simp [handle_response, h200, h304, h403, hc1'.1, hc1'.2,
        rateLimitFromHeaders, hab, rateLimitFlag]
  · intro hst hsig
    have h200 : (r.status == 200) = false := by simp [hst]
    have h304 : (r.status == 304) = false := by simp [hst]
    have h403 : (r.status == 403) = true := by simp [hst]
    simp only [hasRateLimitSignal, Bool.or_eq_false_iff, beq_eq_false_iff_ne] at hsig
    have hsec : charsHaveSub (lowerChars (message403 r)) "secondary rate limit"
        = false := by
      cases hs : charsHaveSub (lowerChars (message403 r)) "secondary rate limit" with
      | false => rfl
      | true => exact absurd (charsHaveSub_of_secondary _ hs) (by simp [hsig.1.1])
    simp [handle_response, h200, h304, h403, hsig.1.1, hsig.1.2, hsig.2,
      rateLimitFromHeaders, hsec]
  · intro hst
    have h200 : (r.status == 200) = false := by simp [hst]
    have h304 : (r.status == 304) = false := by simp [hst]
    have h403 : (r.status == 403) = false := by simp [hst]
    have h401 : (r.status == 401) = true := by simp [hst]
    simp [handle_response, h200, h304, h403, h401]
  · intro hst
    have h200 : (r.status == 200) = false := by simp [hst]
    have h304 : (r.status == 304) = false := by simp [hst]
    have h403 : (r.status == 403) = false := by simp [hst]
    have h401 : (r.status == 401) = false := by simp [hst]
    have h500 : ¬ (500 ≤ r.status) := by omega
    simp [handle_response, h200, h304, h403, h401, h500, hst]

/-- Witness for C5 as amended, at concrete responses: a 403 primary
rate-limit response raises a RateLimitError, a 401 raises the fatal
authentication GitHubAPIError, and a 429 raises the fatal GitHubAPIError. -/
theorem handle_response_classification_witness :
    (rateLimitFlag (handle_response respPrimary403)).isSome = true
    ∧ handle_response resp401 = Except.error (ClientError.apiError (some 401))
    ∧ handle_response resp429 = Except.error (ClientError.apiError (some 429)) :=
  ⟨(handle_response_classification respPrimary403).1 rfl (by decide),
    (handle_response_classification resp401).2.2.1 rfl,
    (handle_response_classification resp429).2.2.2 rfl⟩

/-- C1 evaluated at the failing input: four consecutive secondary-limit
responses.  The waits are 60, 60, 60, 60 seconds — the ladder never
advances past its first step because the counter reset that should only
run on success runs on every completed exchange before the response is
classified — and the RateLimitError propagates after the 4th consecutive
hit (MAX_RETRIES), not the 5th. -/
theorem secondary_ladder_failing_run :
    runRetry (fun _ => AttemptOutcome.completes respAbuse) (fun _ => 0) (fun _ => 0) 0
      = (Except.error (ClientError.rateLimit (some 0) 10 5000 true),
         [60, 60, 60, 60]) := by
  have hcls : handle_response respAbuse
      = Except.error (ClientError.rateLimit (some 0) 10 5000 true) := rfl
  norm_num [runRetry, MAX_RETRIES, runAux, hcls, finalRaise,
    SECONDARY_BACKOFF_MULTIPLIERS]

theorem handle_response_5xx (r : Resp) (h : 500 ≤ r.status) :
    handle_response r
      = Except.error (ClientError.transient (some r.status)
          (normRetryAfter r.retryAfterHeader)) := by
  have h1 : (r.status == 200) = false := by simp only [beq_eq_false_iff_ne]; omega
  have h2 : (r.status == 304) = false := by simp only [beq_eq_false_iff_ne]; omega
  have h3 : (r.status == 403) = false := by simp only [beq_eq_false_iff_ne]; omega
  have h4 : (r.status == 401) = false := by simp only [beq_eq_false_iff_ne]; omega
  simp [handle_response, h1, h2, h3, h4, h]

theorem runAux_transient_step (o : Nat → AttemptOutcome) (now jit : Nat → ℚ)
    (attempt fuel counter : Nat) (le : Option ClientError) (resp : Resp)
    (ho : o attempt = AttemptOutcome.completes resp) (h5 : 500 ≤ resp.status) :
    runAux o now jit attempt (fuel + 1) counter le
      = ((runAux o now jit (attempt + 1) fuel 0
            (some (ClientError.transient (some resp.status)
              (normRetryAfter resp.retryAfterHeader)))).1,
         transientBackoffWait attempt resp.retryAfterHeader
           :: (runAux o now jit (attempt + 1) fuel 0
            (some (ClientError.transient (some resp.status)
              (normRetryAfter resp.retryAfterHeader)))).2) := by
  cases hh : resp.retryAfterHeader with
  | none =>
    simp [runAux, ho, handle_response_5xx resp h5, hh, normRetryAfter,
      transientBackoffWait]
  | some v =>
    by_cases hv : v = 0
    · subst hv
      simp [runAux, ho, handle_response_5xx resp h5, hh, normRetryAfter,
        transientBackoffWait]
    · simp [runAux, ho, handle_response_5xx resp h5, hh, normRetryAfter,
        transientBackoffWait, hv]

theorem runAux_netErr_step (o : Nat → AttemptOutcome) (now jit : Nat → ℚ)
    (attempt fuel counter : Nat) (le : Option ClientError)
    (ho : o attempt = AttemptOutcome.netErr) :
    runAux o now jit attempt (fuel + 1) counter le
      = ((runAux o now jit (attempt + 1) fuel counter
            (some ClientError.netError)).1,
         ((expBackoff attempt : Nat) : ℚ)
           :: (runAux o now jit (attempt + 1) fuel counter
            (some ClientError.netError)).2) := by
  simp [runAux, ho]

theorem transientAttemptWait_noHint (k : Nat) (a : AttemptOutcome)
    (h : NoRetryHint a) :
    transientAttemptWait k a = ((expBackoff k : Nat) : ℚ) := by
  cases a with
  | netErr => rfl
  | completes resp =>
    have hr : resp.retryAfterHeader = none := h
    simp [transientAttemptWait, transientBackoffWait, normRetryAfter, hr]

theorem runAux_transient_run (o : Nat → AttemptOutcome) (now jit : Nat → ℚ)
    (htr : ∀ k, TransientOutcome (o k)) :
    ∀ (fuel attempt counter : Nat) (le : Option ClientError),
      finalRaise le = Except.error (ClientError.apiError none) →
      runAux o now jit attempt fuel counter le
        = (Except.error (ClientError.apiError none),
           (List.range fuel).map (fun i =>
             transientAttemptWait (attempt + i) (o (attempt + i)))) := by
  intro fuel
  induction fuel with
  | zero =>
    intro attempt counter le hle
    simp [runAux, hle]
  | succ fuel ih =>
    intro attempt counter le hle
    cases ho : o attempt with
    | netErr =>
      rw [runAux_netErr_step o now jit attempt fuel counter le ho]
      rw [ih (attempt + 1) counter (some ClientError.netError) rfl]
      simp only [Prod.mk.injEq, true_and, List.range_succ_eq_map, List.map_cons,
        List.map_map, Nat.add_zero, ho]
      congr 1
      simp only [List.map_inj_left, List.mem_range, Function.comp_def,
        Nat.succ_eq_add_one]
      intro i hi
      have hadd : attempt + 1 + i = attempt + (i + 1) := by omega
      rw [hadd]
    | completes resp =>
      have h5 : 500 ≤ resp.status := by
        have htk := htr attempt
        rw [ho] at htk
        exact htk
      rw [runAux_transient_step o now jit attempt fuel counter le resp ho h5]
      rw [ih (attempt + 1) 0
        (some (ClientError.transient (some resp.status)
          (normRetryAfter resp.retryAfterHeader))) rfl]
      simp only [Prod.mk.injEq, true_and, List.range_succ_eq_map, List.map_cons,
        List.map_map, Nat.add_zero, ho]
      congr 1
      simp only [List.map_inj_left, List.mem_range, Function.comp_def,
        Nat.succ_eq_add_one]
      intro i hi
      have hadd : attempt + 1 + i = attempt + (i + 1) := by omega
      rw [hadd]

/-- C9: over any logical call whose attempts all yield transient
conditions — 5xx responses or network errors, in any mix — the call
performs exactly MAX_RETRIES = 4 attempts, each followed by its backoff:
min(60 * 2 ^ attempt, 480) seconds for a network error or for a 5xx
response without a retry hint (60, 120, 240, 480 when no attempt has a
hint), while a nonzero server Retry-After on a 5xx response replaces the
computed backoff at that attempt; and after exhausting the retries the
call raises the wrapping GitHubAPIError instead of returning — never a
silent success. -/
theorem transient_retry_backoff :
    ∀ (o : Nat → AttemptOutcome) (now jit : Nat → ℚ) (counter0 : Nat),
      (∀ k, TransientOutcome (o k)) →
      (runRetry o now jit counter0
          = (Except.error (ClientError.apiError none),
             (List.range MAX_RETRIES).map (fun k => transientAttemptWait k (o k)))
      ∧ ((∀ k, NoRetryHint (o k)) →
        runRetry o now jit counter0
          = (Except.error (ClientError.apiError none), [60, 120, 240, 480]))
      ∧ (∀ k, k < MAX_RETRIES → o k = AttemptOutcome.netErr →
        (runRetry o now jit counter0).2.get? k
          = some ((min (INITIAL_BACKOFF_SECONDS * 2 ^ k) MAX_BACKOFF_SECONDS : ℕ) : ℚ))
      ∧ (∀ k resp, k < MAX_RETRIES → o k = AttemptOutcome.completes resp →
        resp.retryAfterHeader = none →
        (runRetry o now jit counter0).2.get? k
          = some ((min (INITIAL_BACKOFF_SECONDS * 2 ^ k) MAX_BACKOFF_SECONDS : ℕ) : ℚ))
      ∧ (∀ k resp v, k < MAX_RETRIES → o k = AttemptOutcome.completes resp →
        resp.retryAfterHeader = some v → v ≠ 0 →
        (runRetry o now jit counter0).2.get? k = some ((v : ℕ) : ℚ))
      ∧ (runRetry o now jit counter0).2.length = MAX_RETRIES) := by
  intro o now jit counter0 htr
  have hrun : runRetry o now jit counter0
      = (Except.error (ClientError.apiError none),
         (List.range MAX_RETRIES).map (fun k => transientAttemptWait k (o k))) := by
    rw [runRetry, runAux_transient_run o now jit htr MAX_RETRIES 0 counter0 none rfl]
    simp
  refine ⟨hrun, ?_, ?_, ?_, ?_, ?_⟩
  · intro hnh
    rw [hrun]
    have hw : ∀ k, transientAttemptWait k (o k) = ((expBackoff k : Nat) : ℚ) :=
      fun k => transientAttemptWait_noHint k (o k) (hnh k)
    norm_num [MAX_RETRIES, List.range_succ, hw, expBackoff,
      INITIAL_BACKOFF_SECONDS, MAX_BACKOFF_SECONDS]
  · intro k hk ho
    rw [hrun]
    have hk4 : k < 4 := by simpa [MAX_RETRIES] using hk
    have hb : ((min (INITIAL_BACKOFF_SECONDS * 2 ^ k) MAX_BACKOFF_SECONDS : ℕ) : ℚ)
        = ((expBackoff k : Nat) : ℚ) := rfl
    rw [hb]
    interval_cases k <;>
      norm_num [MAX_RETRIES, List.range_succ, ho, transientAttemptWait]
  · intro k resp hk ho hnone
    rw [hrun]
    have hk4 : k < 4 := by simpa [MAX_RETRIES] using hk
    have hb : ((min (INITIAL_BACKOFF_SECONDS * 2 ^ k) MAX_BACKOFF_SECONDS : ℕ) : ℚ)
        = ((expBackoff k : Nat) : ℚ) := rfl
    rw [hb]
    interval_cases k <;>
      norm_num [MAX_RETRIES, List.range_succ, ho, transientAttemptWait,
        transientBackoffWait, normRetryAfter, hnone]
  · intro k resp v hk ho hsome hv
    rw [hrun]
    have hk4 : k < 4 := by simpa [MAX_RETRIES] using hk
    interval_cases k <;>
      norm_num [MAX_RETRIES, List.range_succ, ho, transientAttemptWait,
        transientBackoffWait, normRetryAfter, hsome, hv]
  · rw [hrun]
    simp

/-- Witness for C9 at concrete runs: a mixed run — network error on
attempt 0, then a 502 with Retry-After 33, then plain 502s — backs off 60
seconds after the network error and 33 seconds after the hinted response;
a run of plain 502 responses with no hint backs off 60, 120, 240, 480
seconds and the call fails. -/
theorem transient_retry_backoff_witness :
    (runRetry outcomesMixed (fun _ => 0) (fun _ => 0) 0).2.get? 0
        = some ((min (INITIAL_BACKOFF_SECONDS * 2 ^ 0) MAX_BACKOFF_SECONDS : ℕ) : ℚ)
    ∧ (runRetry outcomesMixed (fun _ => 0) (fun _ => 0) 0).2.get? 1
        = some ((33 : ℕ) : ℚ)
    ∧ runRetry (fun _ => AttemptOutcome.completes (resp502 none))
        (fun _ => 0) (fun _ => 0) 0
      = (Except.error (ClientError.apiError none), [60, 120, 240, 480]) :=
  have htrMixed : ∀ k, TransientOutcome (outcomesMixed k) := by
    intro k
    rcases k with _ | _ | k <;>
      simp [outcomesMixed, TransientOutcome, resp502]
  have htrAll : ∀ k, TransientOutcome
      ((fun _ => AttemptOutcome.completes (resp502 none)) k) := by
    intro k
    simp [TransientOutcome, resp502]
  ⟨(transient_retry_backoff outcomesMixed (fun _ => 0) (fun _ => 0) 0
      htrMixed).2.2.1 0 (by decide) rfl,
    (transient_retry_backoff outcomesMixed (fun _ => 0) (fun _ => 0) 0
      htrMixed).2.2.2.2.1 1 (resp502 (some 33)) 33 (by decide) rfl rfl
      (by decide),
    (transient_retry_backoff (fun _ => AttemptOutcome.completes (resp502 none))
      (fun _ => 0) (fun _ => 0) 0 htrAll).2.1 (fun _ => rfl)⟩

end Concierge
